import Mathlib

/-!
Shallow embedding of the blood-donation backend (`src/app.py`) for checking
its natural-language specification.

The embedding covers the `/create_alert` handler (`create_alert`, the alert
request orchestrator), the donor-directory query it issues, and the
`/users/<id>` profile-update handler (`update_user_profile`).  Database rows
are modelled as Lean structures, the SQLite store as a list of rows, and the
JSON request body as a structure of `Option` fields (a field is `some v`
exactly when the key is present in the body).  Coordinates, distances and
scores are rationals.  The external modules `ai_filter.py` and
`geocoding_free.py` are not part of the given source; their behaviour is
modelled from the specification where a claim needs it, and is otherwise kept
as an abstract function parameter.
-/

namespace BloodApp

/-- A row of the `users` table of `src/app.py`: columns
`id, name, phone, email, password, role, address, lat, lng, blood_type,
last_donation`.  Nullable columns are `Option`; `last_donation` is an
abstract day number. -/
structure User where
  id : Nat
  name : String
  phone : String
  email : String
  password : String
  role : String
  address : Option String
  lat : Option ℚ
  lng : Option ℚ
  blood_type : Option String
  last_donation : Option Nat
deriving DecidableEq

/-- A row of the `hospitals` table of `src/app.py`: columns
`id, name, lat, lng` (coordinates are NOT NULL). -/
structure Hospital where
  id : Nat
  name : String
  lat : ℚ
  lng : ℚ
deriving DecidableEq

/-- One element of the `top_50_users` array produced by `create_alert`:
`{'user': ..., 'distance_km': ..., 'ai_score': ...}`. -/
structure MatchEntry where
  user : User
  distance_km : ℚ
  ai_score : ℚ
deriving DecidableEq

/-- The JSON body of a `/create_alert` request.  A field is `some v` exactly
when the corresponding key (`hospital_id`, `blood_type`, `radius_km`) is
present in the body. -/
structure AlertRequest where
  hospital_id : Option Nat
  blood_type : Option String
  radius_km : Option ℚ
deriving DecidableEq

/-- The possible responses of the `/create_alert` handler: the 400
validation error, the 404 hospital-not-found error, the 500 internal error,
and the success payload
`{hospital, blood_type_needed, radius_km, total_matched, top_50_users}`.
Error responses carry only their message: they have no `top_50_users`
field. -/
inductive AlertResponse where
  | validationError (msg : String)
  | notFound (msg : String)
  | internalError (msg : String)
  | success (hospital : Hospital) (blood_type_needed : String) (radius_km : ℚ)
      (total_matched : Nat) (top_50_users : List MatchEntry)
deriving DecidableEq

/-- The donor-directory query of `create_alert` (`src/app.py` lines
191–196): `User.role == 'donor'`, `User.lat`/`User.lng` not NULL, and
`User.blood_type == blood_type_needed`. -/
def suitable_users (users : List User) (blood_type_needed : String) : List User :=
  users.filter (fun u =>
    u.role == "donor" && u.lat.isSome && u.lng.isSome
      && u.blood_type == some blood_type_needed)

/-- The `/create_alert` handler (`src/app.py` lines 180–215).  The external
filter module is a parameter `ai_filter`; a raised exception inside it is an
`Except.error`.  The handler reads the stores (`hospitals`, `users`) and
performs no write: it returns only a response.
Following the source: validation only checks that both keys
`hospital_id` and `blood_type` are PRESENT (`k in data`), the radius
defaults to 10, the hospital is looked up by primary key, and on success
`total_matched` is the full result count while `top_50_users` keeps the
first 50 entries. -/
def create_alert
    (ai_filter : Hospital → List User → ℚ → Except String (List MatchEntry))
    (hospitals : List Hospital) (users : List User) (req : AlertRequest) :
    AlertResponse :=
  match req.hospital_id, req.blood_type with
  | some hid, some bt =>
    match hospitals.find? (fun h => h.id == hid) with
    | none => .notFound "Không tìm thấy bệnh viện"
    | some hospital =>
      let radius : ℚ := req.radius_km.getD 10
      match ai_filter hospital (suitable_users users bt) radius with
      | .error _ => .internalError "Lỗi máy chủ nội bộ khi lọc người dùng"
      | .ok results => .success hospital bt radius results.length (results.take 50)
  | _, _ => .validationError "Thiếu hospital_id hoặc blood_type"

/-- The ranking rule of the spec (§4.4): score descending, ties by distance
ascending, remaining ties by donor id ascending. -/
def rankR (a b : MatchEntry) : Prop :=
  b.ai_score < a.ai_score
    ∨ (a.ai_score = b.ai_score
      ∧ (a.distance_km < b.distance_km
        ∨ (a.distance_km = b.distance_km ∧ a.user.id ≤ b.user.id)))

instance decRankR : DecidableRel rankR := fun a b =>
  decidable_of_iff
    (b.ai_score < a.ai_score
      ∨ (a.ai_score = b.ai_score
        ∧ (a.distance_km < b.distance_km
          ∨ (a.distance_km = b.distance_km ∧ a.user.id ≤ b.user.id))))
    Iff.rfl

/-- Modelled from the spec: the module `ai_filter.py` (function
`filter_nearby_users`, imported by `create_alert`) is not part of the given
source.  Per spec §4.2–§4.4 it computes each candidate's distance from the
hospital, keeps exactly those with `distance ≤ radius` (inclusive boundary),
scores each survivor, and sorts by score descending with ties by distance
ascending and remaining ties by a deterministic key (donor id ascending).
The distance function and the scoring policy are abstract parameters, since
the spec fixes only their contracts, not their formulas. -/
def filter_nearby_users (dist : ℚ × ℚ → ℚ × ℚ → ℚ) (score : User → ℚ → ℚ)
    (hospital : Hospital) (users : List User) (radius : ℚ) : List MatchEntry :=
  (users.filterMap (fun u =>
    match u.lat, u.lng with
    | some la, some ln =>
      let d := dist (hospital.lat, hospital.lng) (la, ln)
      if d ≤ radius then some ⟨u, d, score u d⟩ else none
    | _, _ => none)).insertionSort rankR

/-- The successfully-imported filter module: `create_alert` instantiated
with the spec-modelled `filter_nearby_users` (no exception raised). -/
def okFilter (dist : ℚ × ℚ → ℚ × ℚ → ℚ) (score : User → ℚ → ℚ) :
    Hospital → List User → ℚ → Except String (List MatchEntry) :=
  fun h us r => Except.ok (filter_nearby_users dist score h us r)

/-- The JSON body of a `/users/<id>` PUT/PATCH request.  A field is `some v`
exactly when the key is present in the body; values are modelled as JSON
strings (`last_donation` is the unparsed date string). -/
structure UpdateData where
  name : Option String
  phone : Option String
  address : Option String
  blood_type : Option String
  last_donation : Option String
deriving DecidableEq

/-- The possible responses of the `/users/<id>` PUT/PATCH handler: the 404
of `get_or_404`, the 400 for an unparsable `last_donation` date, and the 200
success carrying the updated user. -/
inductive UpdateResponse where
  | notFound
  | badRequest (msg : String)
  | ok (user : User)
deriving DecidableEq

/-- The `last_donation` branch of the update loop (`src/app.py` lines
228–236): an absent key changes nothing (`none`), a falsy (empty) value
clears the date (`some none`), otherwise the external date parse either
yields a date or produces the 400 error.  `parseDate` stands for
`dateutil.parser.parse`, external to the source. -/
def parse_last_donation (parseDate : String → Option Nat) (data : UpdateData) :
    Except String (Option (Option Nat)) :=
  match data.last_donation with
  | none => Except.ok none
  | some s =>
    if s = "" then Except.ok (some none)
    else
      match parseDate s with
      | some d => Except.ok (some (some d))
      | none => Except.error "Định dạng ngày last_donation không hợp lệ"

/-- The geocoding step of `update_user_profile` (`src/app.py` lines
242–258): when the `address` key is present with a value different from the
old address (`geocoding_needed`) AND the new address is truthy (non-empty),
the coordinates are re-derived — geocoding success sets `lat`/`lng`,
failure clears them; otherwise the old coordinates stay.  `geocode` stands
for `geocoding_free.geocode_address`, which is not part of the given
source; modelled from the spec as `geocode(address) -> GeoPoint | absent`,
failing soft (absent, never an exception), so the source's exception branch
(which would keep the old coordinates) cannot fire. -/
def new_coordinates (geocode : String → Option (ℚ × ℚ))
    (old_address : Option String) (old_lat old_lng : Option ℚ)
    (data_address : Option String) : Option ℚ × Option ℚ :=
  match data_address with
  | some a =>
    if old_address ≠ some a ∧ a ≠ "" then
      match geocode a with
      | some c => (some c.1, some c.2)
      | none => (none, none)
    else (old_lat, old_lng)
  | none => (old_lat, old_lng)

/-- The field assignments of `update_user_profile` (`src/app.py` lines
222–258) applied to one user record: each present key among
`name, phone, address, blood_type, last_donation` overwrites the column
(`ld` is the already-parsed `last_donation` outcome) and the coordinates
follow the geocoding step (`new_coordinates`); `id`, `email`, `password`
and `role` are not among the allowed fields and are copied unchanged. -/
def apply_profile_fields (geocode : String → Option (ℚ × ℚ)) (data : UpdateData)
    (ld : Option (Option Nat)) (u : User) : User :=
  { id := u.id
    name := data.name.getD u.name
    phone := data.phone.getD u.phone
    email := u.email
    password := u.password
    role := u.role
    address := match data.address with | some a => some a | none => u.address
    lat := (new_coordinates geocode u.address u.lat u.lng data.address).1
    lng := (new_coordinates geocode u.address u.lat u.lng data.address).2
    blood_type := match data.blood_type with | some b => some b | none => u.blood_type
    last_donation := match ld with | some v => v | none => u.last_donation }

/-- The `/users/<id>` PUT/PATCH handler (`src/app.py` lines 218–266).
`get_or_404` is the primary-key lookup; a date-parse failure returns 400
with nothing committed; otherwise the record with the given id is updated
in place and the updated store is returned alongside the 200 response. -/
def update_user_profile (geocode : String → Option (ℚ × ℚ))
    (parseDate : String → Option Nat) (users : List User) (user_id : Nat)
    (data : UpdateData) : UpdateResponse × List User :=
  match users.find? (fun u => u.id == user_id) with
  | none => (.notFound, users)
  | some u0 =>
    match parse_last_donation parseDate data with
    | .error m => (.badRequest m, users)
    | .ok ld =>
      (.ok (apply_profile_fields geocode data ld u0),
        users.map (fun u =>
          if u.id == user_id then apply_profile_fields geocode data ld u else u))

/-! ### Helper lemmas -/

theorem create_alert_success_inv
    {filt : Hospital → List User → ℚ → Except String (List MatchEntry)}
    {hospitals : List Hospital} {users : List User} {req : AlertRequest}
    {h : Hospital} {bt : String} {r : ℚ} {total : Nat} {top : List MatchEntry}
    (hs : create_alert filt hospitals users req
      = .success h bt r total top) :
    ∃ hid res, req.hospital_id = some hid ∧ req.blood_type = some bt
      ∧ hospitals.find? (fun x => x.id == hid) = some h
      ∧ r = req.radius_km.getD 10
      ∧ filt h (suitable_users users bt) r = .ok res
      ∧ total = res.length ∧ top = res.take 50 := by
  cases hhid : req.hospital_id with
  | none => simp [create_alert, hhid] at hs
  | some hid =>
    cases hbt : req.blood_type with
    | none => simp [create_alert, hhid, hbt] at hs
    | some bt0 =>
      cases hfind : hospitals.find? (fun x => x.id == hid) with
      | none => simp [create_alert, hhid, hbt, hfind] at hs
      | some hosp =>
        cases hfilt : filt hosp (suitable_users users bt0) (req.radius_km.getD 10) with
        | error m => simp [create_alert, hhid, hbt, hfind, hfilt] at hs
        | ok res =>
          simp only [create_alert, hhid, hbt, hfind, hfilt] at hs
          obtain ⟨rfl, rfl, rfl, rfl, rfl⟩ := AlertResponse.success.inj hs
          exact ⟨hid, res, rfl, rfl, hfind, rfl, hfilt, rfl, rfl⟩

theorem mem_filter_nearby_users
    {dist : ℚ × ℚ → ℚ × ℚ → ℚ} {score : User → ℚ → ℚ}
    {hospital : Hospital} {users : List User} {radius : ℚ} {e : MatchEntry} :
    e ∈ filter_nearby_users dist score hospital users radius ↔
      ∃ u la ln, u ∈ users ∧ u.lat = some la ∧ u.lng = some ln
        ∧ dist (hospital.lat, hospital.lng) (la, ln) ≤ radius
        ∧ e = ⟨u, dist (hospital.lat, hospital.lng) (la, ln),
               score u (dist (hospital.lat, hospital.lng) (la, ln))⟩ := by
  unfold filter_nearby_users
  rw [List.mem_insertionSort, List.mem_filterMap]
  constructor
  · rintro ⟨u, hu, hf⟩
    cases hla : u.lat with
    | none => simp [hla] at hf
    | some la =>
      cases hln : u.lng with
      | none => simp [hla, hln] at hf
      | some ln =>
        simp only [hla, hln] at hf
        split_ifs at hf with hd
        exact ⟨u, la, ln, hu, hla, hln, hd, (Option.some.inj hf).symm⟩
  · rintro ⟨u, la, ln, hu, hla, hln, hd, rfl⟩
    exact ⟨u, hu, by simp [hla, hln, hd]⟩

theorem filter_nearby_users_eq_nil
    {dist : ℚ × ℚ → ℚ × ℚ → ℚ} {score : User → ℚ → ℚ}
    {hospital : Hospital} {users : List User} {radius : ℚ}
    (hout : ∀ u ∈ users, ∀ la ln, u.lat = some la → u.lng = some ln →
      ¬ dist (hospital.lat, hospital.lng) (la, ln) ≤ radius) :
    filter_nearby_users dist score hospital users radius = [] := by
  rw [List.eq_nil_iff_forall_not_mem]
  intro e he
  obtain ⟨u, la, ln, hu, hla, hln, hd, _⟩ := mem_filter_nearby_users.mp he
  exact hout u hu la ln hla hln hd

instance : IsTotal MatchEntry rankR := by
  constructor
  intro a b
  rcases lt_trichotomy a.ai_score b.ai_score with h | h | h
  · exact Or.inr (Or.inl h)
  · rcases lt_trichotomy a.distance_km b.distance_km with h2 | h2 | h2
    · exact Or.inl (Or.inr ⟨h, Or.inl h2⟩)
    · rcases Nat.le_total a.user.id b.user.id with h3 | h3
      · exact Or.inl (Or.inr ⟨h, Or.inr ⟨h2, h3⟩⟩)
      · exact Or.inr (Or.inr ⟨h.symm, Or.inr ⟨h2.symm, h3⟩⟩)
    · exact Or.inr (Or.inr ⟨h.symm, Or.inl h2⟩)
  · exact Or.inl (Or.inl h)

instance : IsTrans MatchEntry rankR := by
  constructor
  intro a b c hab hbc
  rcases hab with h1 | ⟨e1, h1⟩
  · rcases hbc with h2 | ⟨e2, _⟩
    · exact Or.inl (h2.trans h1)
    · exact Or.inl (lt_of_eq_of_lt e2.symm h1)
  · rcases hbc with h2 | ⟨e2, h2⟩
    · exact Or.inl (lt_of_lt_of_eq h2 e1.symm)
    · refine Or.inr ⟨e1.trans e2, ?_⟩
      rcases h1 with d1 | ⟨de1, i1⟩
      · rcases h2 with d2 | ⟨de2, _⟩
        · exact Or.inl (d1.trans d2)
        · exact Or.inl (lt_of_lt_of_eq d1 de2)
      · rcases h2 with d2 | ⟨de2, i2⟩
        · exact Or.inl (lt_of_eq_of_lt de1 d2)
        · exact Or.inr ⟨de1.trans de2, i1.trans i2⟩

theorem filter_nearby_users_sorted
    (dist : ℚ × ℚ → ℚ × ℚ → ℚ) (score : User → ℚ → ℚ)
    (hospital : Hospital) (users : List User) (radius : ℚ) :
    List.Pairwise rankR (filter_nearby_users dist score hospital users radius) := by
  unfold filter_nearby_users
  exact List.sorted_insertionSort rankR _

/-! ### Claim theorems -/

/-- C1: for every successful match request (run with the spec-modelled
filter module), every element of the returned top-matches list has
`distance_km` at most the requested radius, and an eligible donor whose
computed distance exactly equals the radius is included in the matched
results (the boundary is inclusive). -/
theorem radius_invariant_inclusive_boundary
    (dist : ℚ × ℚ → ℚ × ℚ → ℚ) (score : User → ℚ → ℚ)
    (hospitals : List Hospital) (users : List User) (req : AlertRequest)
    (h : Hospital) (bt : String) (r : ℚ) (total : Nat) (top : List MatchEntry)
    (hs : create_alert (okFilter dist score) hospitals users req
      = .success h bt r total top) :
    (∀ e ∈ top, e.distance_km ≤ r)
      ∧ ∀ u ∈ suitable_users users bt, ∀ la ln,
          u.lat = some la → u.lng = some ln →
          dist (h.lat, h.lng) (la, ln) = r →
          ∃ e ∈ filter_nearby_users dist score h (suitable_users users bt) r,
            e.user = u := by
  obtain ⟨hid, res, hh, hb, hf, hr, hfilt, htot, htop⟩ := create_alert_success_inv hs
  have hres : res = filter_nearby_users dist score h (suitable_users users bt) r :=
    (Except.ok.inj hfilt).symm
  constructor
  · intro e he
    subst htop
    have he' : e ∈ res := List.mem_of_mem_take he
    rw [hres] at he'
    obtain ⟨u, la, ln, _, _, _, hd, rfl⟩ := mem_filter_nearby_users.mp he'
    exact hd
  · intro u hu la ln hla hln hd
    exact ⟨⟨u, dist (h.lat, h.lng) (la, ln),
            score u (dist (h.lat, h.lng) (la, ln))⟩,
      mem_filter_nearby_users.mpr ⟨u, la, ln, hu, hla, hln, le_of_eq hd, rfl⟩, rfl⟩

/-- C2: for every successful match request, the returned top-matches list
has at most 50 entries, `total_matched` is the pre-truncation count of
matched candidates, and `total_matched` is at least the length of the
returned list. -/
theorem truncation_bound
    (filt : Hospital → List User → ℚ → Except String (List MatchEntry))
    (hospitals : List Hospital) (users : List User) (req : AlertRequest)
    (h : Hospital) (bt : String) (r : ℚ) (total : Nat) (top : List MatchEntry)
    (hs : create_alert filt hospitals users req = .success h bt r total top) :
    top.length ≤ 50
      ∧ (∀ res, filt h (suitable_users users bt) r = .ok res → total = res.length)
      ∧ top.length ≤ total := by
  obtain ⟨hid, res, hh, hb, hf, hr, hfilt, htot, htop⟩ := create_alert_success_inv hs
  subst htop
  subst htot
  refine ⟨?_, ?_, ?_⟩
  · exact List.length_take_le 50 res
  · intro res' hres'
    rw [hfilt] at hres'
    exact congrArg List.length (Except.ok.inj hres')
  · exact (List.length_take 50 res).le.trans (min_le_right 50 res.length)

/-- C3: for every successful match request (run with the spec-modelled
filter module), the returned sequence is non-increasing in score; among
elements with equal score it is non-decreasing in distance; and remaining
ties are non-decreasing in donor id — a deterministic total key, so
identical inputs produce the identical order. -/
theorem rank_ordering
    (dist : ℚ × ℚ → ℚ × ℚ → ℚ) (score : User → ℚ → ℚ)
    (hospitals : List Hospital) (users : List User) (req : AlertRequest)
    (h : Hospital) (bt : String) (r : ℚ) (total : Nat) (top : List MatchEntry)
    (hs : create_alert (okFilter dist score) hospitals users req
      = .success h bt r total top) :
    List.Pairwise (fun a b : MatchEntry =>
      b.ai_score ≤ a.ai_score
        ∧ (a.ai_score = b.ai_score → a.distance_km ≤ b.distance_km)
        ∧ (a.ai_score = b.ai_score → a.distance_km = b.distance_km →
            a.user.id ≤ b.user.id)) top := by
  obtain ⟨hid, res, hh, hb, hf, hr, hfilt, htot, htop⟩ := create_alert_success_inv hs
  have hres : res = filter_nearby_users dist score h (suitable_users users bt) r :=
    (Except.ok.inj hfilt).symm
  subst htop
  have hsorted : List.Pairwise rankR res := by
    rw [hres]
    exact filter_nearby_users_sorted dist score h (suitable_users users bt) r
  have htake : List.Pairwise rankR (res.take 50) :=
    hsorted.sublist (List.take_sublist 50 res)
  refine htake.imp ?_
  intro a b hab
  rcases hab with hlt | ⟨heq, hrest⟩
  · exact ⟨hlt.le, fun he => absurd hlt (by simp [he]),
      fun he _ => absurd hlt (by simp [he])⟩
  · refine ⟨le_of_eq heq.symm, fun _ => ?_, fun _ hde => ?_⟩
    · rcases hrest with hd | ⟨hd, _⟩
      · exact hd.le
      · exact le_of_eq hd
    · rcases hrest with hd | ⟨_, hi⟩
      · exact absurd hd (by simp [hde])
      · exact hi

/-- C4: every donor that reaches the engine (the result of the directory
query) has role "donor", present coordinates and exactly the requested
blood type; hence (with the spec-modelled filter) so does the donor of
every entry of the returned top matches — a donor with a non-matching
blood type never appears. -/
theorem eligible_donors_only
    (dist : ℚ × ℚ → ℚ × ℚ → ℚ) (score : User → ℚ → ℚ)
    (hospitals : List Hospital) (users : List User) (req : AlertRequest)
    (h : Hospital) (bt : String) (r : ℚ) (total : Nat) (top : List MatchEntry)
    (hs : create_alert (okFilter dist score) hospitals users req
      = .success h bt r total top) :
    (∀ u ∈ suitable_users users bt,
        u.role = "donor" ∧ u.lat.isSome = true ∧ u.lng.isSome = true
          ∧ u.blood_type = some bt)
      ∧ ∀ e ∈ top,
        e.user.role = "donor" ∧ e.user.lat.isSome = true
          ∧ e.user.lng.isSome = true ∧ e.user.blood_type = some bt := by
  have hsuit : ∀ u ∈ suitable_users users bt,
      u.role = "donor" ∧ u.lat.isSome = true ∧ u.lng.isSome = true
        ∧ u.blood_type = some bt := by
    intro u hu
    unfold suitable_users at hu
    rw [List.mem_filter] at hu
    obtain ⟨-, hcond⟩ := hu
    simp only [Bool.and_eq_true, beq_iff_eq] at hcond
    exact ⟨hcond.1.1.1, hcond.1.1.2, hcond.1.2, hcond.2⟩
  refine ⟨hsuit, ?_⟩
  obtain ⟨hid, res, hh, hb, hf, hr, hfilt, htot, htop⟩ := create_alert_success_inv hs
  have hres : res = filter_nearby_users dist score h (suitable_users users bt) r :=
    (Except.ok.inj hfilt).symm
  subst htop
  intro e he
  have he' : e ∈ res := List.mem_of_mem_take he
  rw [hres] at he'
  obtain ⟨u, la, ln, hu, _, _, _, rfl⟩ := mem_filter_nearby_users.mp he'
  exact hsuit u hu

/-- C5 counterexample: a request whose `blood_type` key is present but
EMPTY passes the source's presence-only validation (`k in data`): with a
matching hospital in the store the pipeline runs to completion and answers
a success payload, not the validation error the claim requires, and the
store was consulted. -/
theorem empty_blood_type_passes_validation :
    create_alert (okFilter (fun _ _ => 5) (fun _ _ => 1))
      [⟨1, "H1", 0, 0⟩] []
      { hospital_id := some 1, blood_type := some "", radius_km := none }
      = AlertResponse.success ⟨1, "H1", 0, 0⟩ "" 10 0 [] := by decide

/-- C5 (amended): for every match request in which the `hospital_id` or
`blood_type` KEY is absent from the body, the handler answers the
client-input validation error, whatever the stores and the filter module
are (so no store access and the pipeline never runs).  A key that is
present with an empty value passes this validation. -/
theorem missing_key_validation_error
    (filt : Hospital → List User → ℚ → Except String (List MatchEntry))
    (hospitals : List Hospital) (users : List User) (req : AlertRequest)
    (hmiss : req.hospital_id = none ∨ req.blood_type = none) :
    create_alert filt hospitals users req
      = .validationError "Thiếu hospital_id hoặc blood_type" := by
  rcases hmiss with hm | hm
  · cases hb : req.blood_type <;> simp [create_alert, hm, hb]
  · cases hh : req.hospital_id <;> simp [create_alert, hm, hh]

/-- C6: when both keys are present but the hospital id does not resolve in
the hospital store, the handler answers the not-found error, for every
donor store and filter module (the pipeline never runs); this error
constructor carries only a message, so the response has no top-matches
field. -/
theorem missing_hospital_not_found
    (filt : Hospital → List User → ℚ → Except String (List MatchEntry))
    (hospitals : List Hospital) (users : List User) (req : AlertRequest)
    (hid : Nat) (bt : String)
    (hh : req.hospital_id = some hid) (hb : req.blood_type = some bt)
    (hf : hospitals.find? (fun x => x.id == hid) = none) :
    create_alert filt hospitals users req
      = .notFound "Không tìm thấy bệnh viện" := by
  simp [create_alert, hh, hb, hf]

/-- C7 (spec-modelled filter): a valid request whose eligible donors all
lie outside the radius completes as a success — not an error — with
`total_matched = 0` and an empty top-matches list. -/
theorem no_match_success
    (dist : ℚ × ℚ → ℚ × ℚ → ℚ) (score : User → ℚ → ℚ)
    (hospitals : List Hospital) (users : List User) (req : AlertRequest)
    (hid : Nat) (bt : String) (h : Hospital)
    (hh : req.hospital_id = some hid) (hb : req.blood_type = some bt)
    (hf : hospitals.find? (fun x => x.id == hid) = some h)
    (hout : ∀ u ∈ suitable_users users bt, ∀ la ln,
      u.lat = some la → u.lng = some ln →
      ¬ dist (h.lat, h.lng) (la, ln) ≤ req.radius_km.getD 10) :
    create_alert (okFilter dist score) hospitals users req
      = .success h bt (req.radius_km.getD 10) 0 [] := by
  have hnil := @filter_nearby_users_eq_nil dist score h (suitable_users users bt)
    (req.radius_km.getD 10) hout
  simp [create_alert, hh, hb, hf, okFilter, hnil]

/-- C8: when the filter module raises (an `Except.error`, whatever its
message), the handler catches it and answers the constant internal-error
response: the message exposes no fault details, the response carries no
partial output and no top-matches field, and the handler — which only reads
the stores and returns a response — has written nothing. -/
theorem internal_error_opaque
    (filt : Hospital → List User → ℚ → Except String (List MatchEntry))
    (hospitals : List Hospital) (users : List User) (req : AlertRequest)
    (hid : Nat) (bt : String) (h : Hospital) (msg : String)
    (hh : req.hospital_id = some hid) (hb : req.blood_type = some bt)
    (hf : hospitals.find? (fun x => x.id == hid) = some h)
    (he : filt h (suitable_users users bt) (req.radius_km.getD 10)
      = .error msg) :
    create_alert filt hospitals users req
      = .internalError "Lỗi máy chủ nội bộ khi lọc người dùng" := by
  simp [create_alert, hh, hb, hf, he]

/-! ### Concrete fixtures for the witnesses -/

def hospitalA : Hospital := ⟨1, "H1", 0, 0⟩

def donorA : User :=
  ⟨1, "An", "0901", "an@x", "pw", "donor", some "HN", some 1, some 1, some "O", none⟩

def donorFar : User :=
  ⟨2, "Ba", "0902", "ba@x", "pw", "donor", some "XX", some 10, some 10, some "O", none⟩

def reqA : AlertRequest := ⟨some 1, some "O", none⟩

def dist5 : ℚ × ℚ → ℚ × ℚ → ℚ := fun _ _ => 5

def dist10 : ℚ × ℚ → ℚ × ℚ → ℚ := fun _ _ => 10

def distFar : ℚ × ℚ → ℚ × ℚ → ℚ := fun _ _ => 1500

def score1 : User → ℚ → ℚ := fun _ _ => 1

def errFilter : Hospital → List User → ℚ → Except String (List MatchEntry) :=
  fun _ _ _ => .error "boom"

/-! ### Witnesses -/

theorem radius_invariant_inclusive_boundary_witness :
    ((⟨donorA, 10, 1⟩ : MatchEntry).distance_km ≤ 10)
      ∧ ∃ e ∈ filter_nearby_users dist10 score1 hospitalA
          (suitable_users [donorA] "O") 10, e.user = donorA := by
  have h := radius_invariant_inclusive_boundary dist10 score1 [hospitalA] [donorA]
    reqA hospitalA "O" 10 1 [⟨donorA, 10, 1⟩] (by decide)
  exact ⟨h.1 _ (by decide), h.2 donorA (by decide) 1 1 rfl rfl rfl⟩

theorem truncation_bound_witness :
    ([(⟨donorA, 5, 1⟩ : MatchEntry)]).length ≤ 50
      ∧ (1 : Nat) = [(⟨donorA, 5, 1⟩ : MatchEntry)].length
      ∧ ([(⟨donorA, 5, 1⟩ : MatchEntry)]).length ≤ 1 := by
  have h := truncation_bound (okFilter dist5 score1) [hospitalA] [donorA]
    reqA hospitalA "O" 10 1 [⟨donorA, 5, 1⟩] (by decide)
  exact ⟨h.1, h.2.1 _ rfl, h.2.2⟩

theorem rank_ordering_witness :
    List.Pairwise (fun a b : MatchEntry =>
      b.ai_score ≤ a.ai_score
        ∧ (a.ai_score = b.ai_score → a.distance_km ≤ b.distance_km)
        ∧ (a.ai_score = b.ai_score → a.distance_km = b.distance_km →
            a.user.id ≤ b.user.id)) [⟨donorA, 5, 1⟩] :=
  rank_ordering dist5 score1 [hospitalA] [donorA] reqA hospitalA "O" 10 1
    [⟨donorA, 5, 1⟩] (by decide)

theorem eligible_donors_only_witness :
    donorA.role = "donor" ∧ donorA.lat.isSome = true ∧ donorA.lng.isSome = true
      ∧ donorA.blood_type = some "O" := by
  have h := eligible_donors_only dist5 score1 [hospitalA] [donorA] reqA
    hospitalA "O" 10 1 [⟨donorA, 5, 1⟩] (by decide)
  exact h.1 donorA (by decide)

theorem missing_key_validation_error_witness :
    create_alert (okFilter dist5 score1) [hospitalA] [donorA]
      ⟨none, some "O", none⟩
      = .validationError "Thiếu hospital_id hoặc blood_type" :=
  missing_key_validation_error (okFilter dist5 score1) [hospitalA] [donorA]
    ⟨none, some "O", none⟩ (Or.inl rfl)

theorem missing_hospital_not_found_witness :
    create_alert (okFilter dist5 score1) [] [donorA] reqA
      = .notFound "Không tìm thấy bệnh viện" :=
  missing_hospital_not_found (okFilter dist5 score1) [] [donorA] reqA 1 "O"
    rfl rfl rfl

theorem no_match_success_witness :
    create_alert (okFilter distFar score1) [hospitalA] [donorFar] reqA
      = .success hospitalA "O" 10 0 [] := by
  refine no_match_success distFar score1 [hospitalA] [donorFar] reqA 1 "O"
    hospitalA rfl rfl rfl ?_
  intro u hu la ln hla hln
  have hu' : u = donorFar := by
    unfold suitable_users at hu
    simpa using List.mem_of_mem_filter hu
  subst hu'
  simp [distFar, reqA]
  decide

theorem internal_error_opaque_witness :
    create_alert errFilter [hospitalA] [donorA] reqA
      = .internalError "Lỗi máy chủ nội bộ khi lọc người dùng" :=
  internal_error_opaque errFilter [hospitalA] [donorA] reqA 1 "O" hospitalA
    "boom" rfl rfl rfl rfl

/-! ### Profile update: helper lemmas -/

theorem update_user_profile_ok_inv
    {geocode : String → Option (ℚ × ℚ)} {parseDate : String → Option Nat}
    {users : List User} {uid : Nat} {data : UpdateData} {v : User}
    {users' : List User}
    (hup : update_user_profile geocode parseDate users uid data
      = (UpdateResponse.ok v, users')) :
    ∃ u0 ld, users.find? (fun u => u.id == uid) = some u0
      ∧ parse_last_donation parseDate data = .ok ld
      ∧ v = apply_profile_fields geocode data ld u0
      ∧ users' = users.map (fun u =>
          if u.id == uid then apply_profile_fields geocode data ld u else u) := by
  cases hfind : users.find? (fun u => u.id == uid) with
  | none => simp [update_user_profile, hfind] at hup
  | some u0 =>
    cases hld : parse_last_donation parseDate data with
    | error m => simp [update_user_profile, hfind, hld] at hup
    | ok ld =>
      simp only [update_user_profile, hfind, hld] at hup
      obtain ⟨h1, h2⟩ := Prod.mk.inj hup
      exact ⟨u0, ld, rfl, rfl, (UpdateResponse.ok.inj h1).symm, h2.symm⟩

theorem apply_profile_fields_address_change
    (geocode : String → Option (ℚ × ℚ)) (data : UpdateData)
    (ld : Option (Option Nat)) (u : User) (a : String)
    (ha : data.address = some a) (hchanged : u.address ≠ some a)
    (hne : a ≠ "") :
    (apply_profile_fields geocode data ld u).address = some a
      ∧ ((∃ la ln, geocode a = some (la, ln)
            ∧ (apply_profile_fields geocode data ld u).lat = some la
            ∧ (apply_profile_fields geocode data ld u).lng = some ln)
        ∨ (geocode a = none ∧ (apply_profile_fields geocode data ld u).lat = none
            ∧ (apply_profile_fields geocode data ld u).lng = none)) := by
  unfold apply_profile_fields new_coordinates
  simp only [ha]
  split_ifs with hcond
  · cases hg : geocode a with
    | some c => exact ⟨trivial, Or.inl ⟨c.1, c.2, rfl, rfl, rfl⟩⟩
    | none => exact ⟨trivial, Or.inr ⟨rfl, rfl, rfl⟩⟩
  · exact absurd ⟨hchanged, hne⟩ hcond

theorem apply_profile_fields_frame
    (geocode : String → Option (ℚ × ℚ)) (data : UpdateData)
    (ld : Option (Option Nat)) (u : User) :
    (apply_profile_fields geocode data ld u).id = u.id
      ∧ (apply_profile_fields geocode data ld u).email = u.email
      ∧ (apply_profile_fields geocode data ld u).password = u.password
      ∧ (apply_profile_fields geocode data ld u).role = u.role :=
  ⟨rfl, rfl, rfl, rfl⟩

/-- C9 counterexample: a profile update that changes the donor's address to
the EMPTY string skips the geocoding step (the source guards it with
`if geocoding_needed and user.address`) and retains the coordinates of the
OLD address — here a geocoder that resolves nothing still leaves
`lat = 1, lng = 1` in place while the stored address becomes `""`. -/
theorem empty_address_keeps_old_coordinates :
    update_user_profile (fun _ => none) (fun _ => none) [donorA] 1
      { name := none, phone := none, address := some "", blood_type := none,
        last_donation := none }
      = (.ok ⟨1, "An", "0901", "an@x", "pw", "donor", some "", some 1, some 1,
            some "O", none⟩,
         [⟨1, "An", "0901", "an@x", "pw", "donor", some "", some 1, some 1,
            some "O", none⟩]) := by
  decide

/-- C9 (amended): for every successful profile update that changes a
donor's address to a NON-EMPTY value, the stored coordinates are re-derived
by geocoding the new address: on geocoding success the new point is stored,
on failure the coordinates become absent rather than keep the old
address's values.  (An update that changes the address to an empty value
skips geocoding and keeps the old coordinates — see the counterexample.)
The geocoder is modelled from the spec as failing soft. -/
theorem address_change_regeocodes
    (geocode : String → Option (ℚ × ℚ)) (parseDate : String → Option Nat)
    (users : List User) (uid : Nat) (data : UpdateData) (a : String)
    (v : User) (users' : List User) (u : User)
    (hup : update_user_profile geocode parseDate users uid data
      = (UpdateResponse.ok v, users'))
    (hu : u ∈ users) (hid : u.id = uid)
    (ha : data.address = some a) (hchanged : u.address ≠ some a)
    (hne : a ≠ "") :
    ∃ u' ∈ users', u'.id = uid ∧ u'.address = some a
      ∧ ((∃ la ln, geocode a = some (la, ln)
            ∧ u'.lat = some la ∧ u'.lng = some ln)
        ∨ (geocode a = none ∧ u'.lat = none ∧ u'.lng = none)) := by
  obtain ⟨u0, ld, hfind, hld, hv, husers'⟩ := update_user_profile_ok_inv hup
  subst husers'
  have hmem : apply_profile_fields geocode data ld u ∈ users.map
      (fun x => if x.id == uid then apply_profile_fields geocode data ld x else x) := by
    have hmm := List.mem_map_of_mem
      (fun x => if x.id == uid then apply_profile_fields geocode data ld x else x) hu
    simpa [hid] using hmm
  obtain ⟨haddr, hco⟩ := apply_profile_fields_address_change geocode data ld u a
    ha hchanged hne
  exact ⟨apply_profile_fields geocode data ld u, hmem,
    (apply_profile_fields_frame geocode data ld u).1.trans hid, haddr, hco⟩

/-- C10: a profile-update call never changes any user's `id`, `email`,
`password` or `role` — so only the columns `name, phone, address,
blood_type, last_donation` and the geocode-derived `lat, lng` of the
targeted user can change — and every user whose id is not the targeted one
is left entirely unchanged. -/
theorem profile_update_frame
    (geocode : String → Option (ℚ × ℚ)) (parseDate : String → Option Nat)
    (users : List User) (uid : Nat) (data : UpdateData) :
    List.Forall₂ (fun u u' =>
      u'.id = u.id ∧ u'.email = u.email ∧ u'.password = u.password
        ∧ u'.role = u.role ∧ (u.id ≠ uid → u' = u))
      users (update_user_profile geocode parseDate users uid data).2 := by
  have hrefl : List.Forall₂ (fun u u' : User =>
      u'.id = u.id ∧ u'.email = u.email ∧ u'.password = u.password
        ∧ u'.role = u.role ∧ (u.id ≠ uid → u' = u)) users users :=
    List.forall₂_same.mpr (fun x _ => ⟨rfl, rfl, rfl, rfl, fun _ => rfl⟩)
  cases hfind : users.find? (fun u => u.id == uid) with
  | none =>
    simp only [update_user_profile, hfind]
    exact hrefl
  | some u0 =>
    cases hld : parse_last_donation parseDate data with
    | error m =>
      simp only [update_user_profile, hfind, hld]
      exact hrefl
    | ok ld =>
      simp only [update_user_profile, hfind, hld]
      rw [List.forall₂_map_right_iff]
      refine List.forall₂_same.mpr (fun x _ => ?_)
      by_cases hxi : x.id = uid
      · rw [if_pos (beq_iff_eq.mpr hxi)]
        obtain ⟨h1, h2, h3, h4⟩ := apply_profile_fields_frame geocode data ld x
        exact ⟨h1, h2, h3, h4, fun hne => absurd hxi hne⟩
      · rw [if_neg (fun hb => hxi (beq_iff_eq.mp hb))]
        exact ⟨rfl, rfl, rfl, rfl, fun _ => rfl⟩

/-! ### Profile update witnesses -/

def geocodeB : String → Option (ℚ × ℚ) :=
  fun s => if s = "B" then some (2, 3) else none

def dataB : UpdateData := ⟨none, none, some "B", none, none⟩

def donorA' : User :=
  ⟨1, "An", "0901", "an@x", "pw", "donor", some "B", some 2, some 3, some "O", none⟩

theorem address_change_regeocodes_witness :
    ∃ u' ∈ [donorA'], u'.id = 1 ∧ u'.address = some "B"
      ∧ ((∃ la ln, geocodeB "B" = some (la, ln)
            ∧ u'.lat = some la ∧ u'.lng = some ln)
        ∨ (geocodeB "B" = none ∧ u'.lat = none ∧ u'.lng = none)) :=
  address_change_regeocodes geocodeB (fun _ => none) [donorA] 1 dataB "B"
    donorA' [donorA'] donorA (by decide) (by decide) rfl rfl (by decide)
    (by decide)

end BloodApp
